import Mathlib

/-!
Verification of the requirements/configuration matching engine of the
cluster-test harness: `cluster_tests/testlib/requirements.py` and the
grouping logic of `cluster_tests/run.py`.

Conventions of the embedding:
* Python `None`-able integers become `Option Int`; Python string rendering
  of values is reproduced with `toString`.
* A constructor that can `raise` becomes a function into `Except String _`
  whose error strings are the messages of the source.
* Cluster state observed over HTTP is modelled as a record of the fields
  the `is_met` predicates read.
* Python `str` comparison (used by `sorted`) is code-point lexicographic;
  it is reproduced below by `strLtB`/`strLeB` over `String.toList`, which
  the kernel can evaluate.
-/

/-- Observed state of one connected node (fields read by `is_met` of
`Services` and `MasterPasswordState`, each of which queries the node). -/
structure ConnNode where
  services : List String
  password_state : String
deriving DecidableEq

/-- Observed cluster state: exactly the query surface the `is_met`
predicates read.  `nodes` is the length of `cluster.nodes` (only the
length is ever read); `connected` carries one record per element of
`cluster.connected_nodes`; `pools_nodes_afamily` and
`pools_nodes_encryption` are the per-node fields of one `/pools/nodes`
response; `default_num_vbuckets` is the integer the `diag_eval`
introspection call returns. -/
structure Cluster where
  is_enterprise : Bool
  is_serverless : Bool
  is_provisioned : Bool
  nodes : Nat
  connected : List ConnNode
  memsize : Int
  pools_nodes_afamily : List String
  pools_nodes_encryption : List Bool
  default_num_vbuckets : Int
deriving DecidableEq

/-- The `deploy` argument of `Services`: either a flat list of service
name strings, or a mapping from node label to the service value stored
for it (the source builds `{node: service.value}`, one string per key). -/
inductive ServicesDeploy where
  | list (l : List String)
  | dict (d : List (String × String))
deriving DecidableEq

/-- One `Requirement` object.  Each variant carries the `_kwargs` the
source passes to `Requirement.__init__` (for `NumNodes` these are the RAW
constructor arguments, before the connected-defaulting that only rewrites
the object fields; the defaulted fields are recovered by
`nn_num_connected` / `nn_min_num_connected`). -/
inductive Req where
  | edition (edition : String)
  | numNodes (num_nodes min_num_nodes num_connected min_num_connected : Option Int)
  | memSize (memsize min_memsize : Option Int)
  | afamily (afamily : String)
  | services (deploy : ServicesDeploy)
  | masterPasswordState (state : String)
  | numVbuckets (num_vbuckets : Int)
  | n2nEncryption (encryption : Bool)
deriving DecidableEq

/-- Renders one non-`None` kwarg as `key=value`, or nothing. -/
def optKw (k : String) (v : Option Int) : List String :=
  match v with
  | some x => [k ++ "=" ++ toString x]
  | none => []

/-- Python `str` of a list of strings, e.g. `[\x27kv\x27, \x27n1ql\x27]`
(service names contain no quote or escape characters). -/
def pyStrList (l : List String) : String :=
  "[" ++ String.intercalate ", " (l.map (fun s => "\x27" ++ s ++ "\x27")) ++ "]"

/-- Python `str` of a string-to-string dict, e.g. `\x7b\x27n0\x27: \x27kv\x27\x7d`. -/
def pyStrDict (d : List (String × String)) : String :=
  "\x7b" ++
    String.intercalate ", " (d.map (fun p => "\x27" ++ p.1 ++ "\x27: \x27" ++ p.2 ++ "\x27")) ++
    "\x7d"

/-- Python `str` of the stored deploy value. -/
def strDeploy : ServicesDeploy → String
  | .list l => pyStrList l
  | .dict d => pyStrDict d

/-- `Requirement.__str__`: the non-`None` kwargs rendered `key=value` and
joined with commas, in the kwarg order of each constructor. -/
def strReq : Req → String
  | .edition e => "edition=" ++ e
  | .numNodes n m c mc =>
      String.intercalate ","
        (optKw "num_nodes" n ++ optKw "min_num_nodes" m ++
         optKw "num_connected" c ++ optKw "min_num_connected" mc)
  | .memSize ms mm =>
      String.intercalate "," (optKw "memsize" ms ++ optKw "min_memsize" mm)
  | .afamily a => "afamily=" ++ a
  | .services d => "deploy=" ++ strDeploy d
  | .masterPasswordState s => "master_password_state=" ++ s
  | .numVbuckets n => "num_vbuckets=" ++ toString n
  | .n2nEncryption b => "encryption=" ++ (if b then "True" else "False")

/-- The Python class name of the variant (the `sorted` key of
`ClusterRequirements.__str__`). -/
def Req.className : Req → String
  | .edition _ => "Edition"
  | .numNodes _ _ _ _ => "NumNodes"
  | .memSize _ _ => "MemSize"
  | .afamily _ => "AFamily"
  | .services _ => "Services"
  | .masterPasswordState _ => "MasterPasswordState"
  | .numVbuckets _ => "NumVbuckets"
  | .n2nEncryption _ => "N2nEncryption"

/-- `can_be_met`: overridden to `True` only by `MemSize` and
`N2nEncryption`; the base class returns `False`. -/
def Req.can_be_met : Req → Bool
  | .memSize _ _ => true
  | .n2nEncryption _ => true
  | _ => false

/-- The `num_connected` field after `NumNodes.__init__`: when neither
connected argument is given it is defaulted to `num_nodes`. -/
def nn_num_connected (num_nodes _min_num_nodes num_connected min_num_connected : Option Int) :
    Option Int :=
  if num_connected.isNone && min_num_connected.isNone then num_nodes else num_connected

/-- The `min_num_connected` field after `NumNodes.__init__`: when neither
connected argument is given it is defaulted to `min_num_nodes`. -/
def nn_min_num_connected (_num_nodes min_num_nodes num_connected min_num_connected : Option Int) :
    Option Int :=
  if num_connected.isNone && min_num_connected.isNone then min_num_nodes else min_num_connected

/-- `Edition.__init__`: raises unless the edition is one of the four
recognised names. -/
def mkEdition (edition : String) : Except String Req :=
  if ["Community", "Enterprise", "Serverless", "Provisioned"].contains edition then
    .ok (.edition edition)
  else
    .error "Edition must be in [Community, Enterprise, Serverless, Provisioned]"

/-- `NumNodes.__init__`: the validation chain of the source, in order;
on success the object carries the raw arguments (see `Req`). -/
def mkNumNodes (num_nodes min_num_nodes num_connected min_num_connected : Option Int) :
    Except String Req :=
  if num_nodes.isNone && min_num_nodes.isNone then
    .error "num_nodes and min_num_nodes can\x27t both be None"
  else if num_nodes.isSome && min_num_nodes.isSome then
    .error "num_nodes and min_num_nodes are mutually exclusive"
  else if num_connected.isSome && min_num_connected.isSome then
    .error "num_connected and min_num_connected are mutually exclusive"
  else if num_nodes.any (fun v => v < 1) then
    .error "num_nodes must be a positive integer"
  else if min_num_nodes.any (fun v => v < 1) then
    .error "min_num_nodes must be a positive integer"
  else if num_connected.any (fun v => v < 1) then
    .error "num_connected must be at least 1"
  else if min_num_connected.any (fun v => v < 1) then
    .error "min_num_connected must be at least 1"
  else
    let err1 : Option String :=
      match num_connected, num_nodes, min_num_nodes with
      | some ncv, some nnv, _ =>
          if nnv < ncv then some "num_nodes cannot be less than num_connected" else none
      | some ncv, none, some mnv =>
          if mnv < ncv then some "min_num_nodes cannot be less than num_connected" else none
      | _, _, _ => none
    let err2 : Option String :=
      match min_num_connected, num_nodes, min_num_nodes with
      | some mcv, some nnv, _ =>
          if nnv < mcv then some "num_nodes cannot be less than min_num_connected" else none
      | some mcv, none, some mnv =>
          if mnv < mcv then some "min_num_nodes cannot be less than min_num_connected" else none
      | _, _, _ => none
    match err1 with
    | some e => .error e
    | none =>
        match err2 with
        | some e => .error e
        | none => .ok (.numNodes num_nodes min_num_nodes num_connected min_num_connected)

/-- `MemSize.__init__`.  When both arguments are `None` the source falls
through the value checks and then crashes with `AttributeError` on
`self.memsize_to_use`, which was never assigned; that crash is modelled
as the last error case. -/
def mkMemSize (memsize min_memsize : Option Int) : Except String Req :=
  if memsize.isSome && min_memsize.isSome then
    .error "memsize and min_memsize are mutually exclusive"
  else if memsize.any (fun v => v < 256) then
    .error "memsize must be a positive integer >= 256"
  else if min_memsize.any (fun v => v < 256) then
    .error "min_memsize must be a positive integer >= 256"
  else if memsize.isNone && min_memsize.isNone then
    .error "AttributeError: memsize_to_use is never assigned"
  else
    .ok (.memSize memsize min_memsize)

/-- `NumVbuckets.__init__`. -/
def mkNumVbuckets (num_vbuckets : Int) : Except String Req :=
  if num_vbuckets ≤ 0 then .error "num_vbuckets needs to be > 0"
  else if 1024 < num_vbuckets then .error "num_vbuckets needs to be <= 1024"
  else .ok (.numVbuckets num_vbuckets)

/-- Constructibility of a requirement object: the constructor of its
variant accepts its arguments (variants whose constructors never raise
are always well formed). -/
def wfReq : Req → Bool
  | .edition e => (mkEdition e).isOk
  | .numNodes n m c mc => (mkNumNodes n m c mc).isOk
  | .memSize ms mm => (mkMemSize ms mm).isOk
  | .numVbuckets n => (mkNumVbuckets n).isOk
  | _ => true

/-- `AFamily.is_met` translation table; the source indexes a dict, so an
unknown family raises `KeyError` (modelled as `none`, giving `false`
below; `AFamily` is only ever built with `ipv4` or `ipv6`). -/
def afamilyTranslate (a : String) : Option String :=
  if a = "ipv4" then some "inet" else if a = "ipv6" then some "inet6" else none

/-- `NumNodes.is_met`, over the post-construction (defaulted) connected
fields: each specified constraint is checked in the order of the source;
exact constraints by equality, min constraints by at-least. -/
def nnIsMet (n m c mc : Option Int) (cl : Cluster) : Bool :=
  let nc := nn_num_connected n m c mc
  let mnc := nn_min_num_connected n m c mc
  if n.any (fun v => (cl.nodes : Int) ≠ v) then false
  else if nc.any (fun v => (cl.connected.length : Int) ≠ v) then false
  else if m.any (fun v => (cl.nodes : Int) < v) then false
  else if mnc.any (fun v => (cl.connected.length : Int) < v) then false
  else true

/-- `is_met` of each variant (`cluster_tests` versions). -/
def Req.is_met : Req → Cluster → Bool
  | .edition e, c =>
      if e = "Community" then !c.is_enterprise && !c.is_serverless
      else if e = "Enterprise" then c.is_enterprise && !c.is_serverless
      else if e = "Serverless" then c.is_enterprise && c.is_serverless
      else if e = "Provisioned" then c.is_enterprise && c.is_provisioned
      else false
  | .numNodes n m cc mcc, cl => nnIsMet n m cc mcc cl
  | .memSize ms mm, c =>
      match ms, mm with
      | some v, _ => c.memsize == v
      | none, some mv => mv ≤ c.memsize
      | none, none => false
  | .afamily a, c =>
      match afamilyTranslate a with
      | some t => c.pools_nodes_afamily.all (fun f => f == t)
      | none => false
  | .services d, c =>
      c.connected.enum.all (fun p =>
        match d with
        | .list l => l.all (fun s => p.2.services.contains s)
        | .dict dd =>
            match List.lookup ("n" ++ toString p.1) dd with
            | some sval =>
                sval.toList.all (fun ch => p.2.services.contains (String.singleton ch))
            | none => true)
  | .masterPasswordState s, c =>
      c.connected.all (fun nd => nd.password_state == s)
  | .numVbuckets n, c => c.default_num_vbuckets == n
  | .n2nEncryption b, c => c.pools_nodes_encryption.all (fun e => e == b)

/-- `intersect_limits(min_val1, exact_val1, min_val2, exact_val2)`.  The
source assumes each pair carries exactly one value; where it would raise
`TypeError` (comparing or maxing with `None`) the embedding returns the
failure triple, a case no validly constructed requirement reaches. -/
def intersect_limits (min_val1 exact_val1 min_val2 exact_val2 : Option Int) :
    Bool × Option Int × Option Int :=
  match exact_val1 with
  | some e1 =>
      match exact_val2 with
      | some e2 => if e1 ≠ e2 then (false, none, none) else (true, none, some e1)
      | none =>
          match min_val2 with
          | some m2 => if e1 < m2 then (false, none, none) else (true, none, some e1)
          | none => (false, none, none)
  | none =>
      match exact_val2 with
      | some e2 =>
          match min_val1 with
          | some m1 => if e2 < m1 then (false, none, none) else (true, none, some e2)
          | none => (false, none, none)
      | none =>
          match min_val1, min_val2 with
          | some m1, some m2 => (true, some (max m1 m2), none)
          | _, _ => (false, none, none)

/-- `Requirement.intersect` with the overrides of `NumNodes` and
`MemSize`; every other combination falls to the base implementation
`(False, None)`.  The overriding variants rebuild the result through the
checked constructor, so a constructor `raise` surfaces as `.error` (all
call sites pair requirements of the same kind, as `ClusterRequirements.
intersect` does per dict key). -/
def Req.intersect : Req → Req → Except String (Bool × Option Req)
  | .numNodes n1 m1 c1 mc1, .numNodes n2 m2 c2 mc2 =>
      let r1 := intersect_limits m1 n1 m2 n2
      let r2 := intersect_limits (nn_min_num_connected n1 m1 c1 mc1) (nn_num_connected n1 m1 c1 mc1)
                                 (nn_min_num_connected n2 m2 c2 mc2) (nn_num_connected n2 m2 c2 mc2)
      if r1.1 && r2.1 then
        (mkNumNodes r1.2.2 r1.2.1 r2.2.2 r2.2.1).map (fun r => (true, some r))
      else
        .ok (false, none)
  | .memSize ms1 mm1, .memSize ms2 mm2 =>
      let r := intersect_limits mm1 ms1 mm2 ms2
      if r.1 then
        (mkMemSize r.2.2 r.2.1).map (fun q => (true, some q))
      else
        .ok (false, none)
  | _, _ => .ok (false, none)

/-- Python code-point lexicographic `<` on char lists (shorter proper
prefixes sort first). -/
def charListLt : List Char → List Char → Bool
  | [], [] => false
  | [], _ :: _ => true
  | _ :: _, [] => false
  | c :: cs, d :: ds =>
      if c.toNat < d.toNat then true
      else if d.toNat < c.toNat then false
      else charListLt cs ds

/-- Python string `<` (code-point lexicographic). -/
def strLtB (a b : String) : Bool := charListLt a.toList b.toList

/-- Python string `<=`: the negation of the reversed strict comparison. -/
def strLeB (a b : String) : Bool := !(strLtB b a)

/-- The comparison `sorted(xs, key=key)` orders by: stable ascending on
the rendered key.  `List.insertionSort` with this relation is stable and
places an element after all equal keys already in the list, matching the
stable Python sort. -/
def keyLe {α : Type} (key : α → String) (a b : α) : Prop :=
  strLeB (key a) (key b) = true

instance {α : Type} (key : α → String) : DecidableRel (keyLe key) :=
  fun a b => instDecidableEqBool (strLeB (key a) (key b)) true

/-- `sorted(xs, key=key)`. -/
def pySorted {α : Type} (key : α → String) (l : List α) : List α :=
  List.insertionSort (keyLe key) l

/-- `ClusterRequirements`: the fixed dict from kind key to optional
requirement, in the insertion order of `__init__`. -/
structure CR where
  edition : Option Req
  num_nodes : Option Req
  memsize : Option Req
  afamily : Option Req
  services : Option Req
  master_password_state : Option Req
  num_vbuckets : Option Req
  encryption : Option Req
deriving DecidableEq

/-- A `ClusterRequirements` with every slot empty
(`ClusterRequirements()`). -/
def emptyCR : CR :=
  { edition := none, num_nodes := none, memsize := none, afamily := none,
    services := none, master_password_state := none, num_vbuckets := none,
    encryption := none }

/-- `as_list`: the non-`None` values of the requirements dict, in dict
insertion order. -/
def CR.asList (r : CR) : List Req :=
  [r.edition, r.num_nodes, r.memsize, r.afamily, r.services,
   r.master_password_state, r.num_vbuckets, r.encryption].filterMap id

/-- The key strings of the requirements dict, in insertion order; every
`ClusterRequirements.__init__` stores exactly these eight keys, so
iterating the dict of any instance yields them. -/
def requirementsDictKeys : List String :=
  ["edition", "num_nodes", "memsize", "afamily", "services",
   "master_password_state", "num_vbuckets", "encryption"]

/-- `ClusterRequirements.satisfied_by`: the source iterates
`other.requirements` — the dict itself, which yields its KEY strings, not
the requirement values — and `Requirement.__eq__` compares
`str(requirement)` with `str(key)`, i.e. with the key itself. -/
def satisfied_by (self other : CR) : Bool :=
  self.asList.all (fun requirement =>
    requirementsDictKeys.any (fun other_requirement =>
      strReq requirement == other_requirement))

/-- `ClusterRequirements.__str__`: requirements sorted by class name,
the partition that cannot be met post-creation first, then the mutable
partition, joined with commas. -/
def strCR (r : CR) : String :=
  let all_reqs := pySorted Req.className r.asList
  let immutable_requirements := all_reqs.filter (fun x => !x.can_be_met)
  let mutable_requirements := all_reqs.filter (fun x => x.can_be_met)
  String.intercalate "," ((immutable_requirements ++ mutable_requirements).map strReq)

/-- `get_unmet_requirements`: the requirements of the set the cluster
does not meet, in `as_list` order. -/
def get_unmet_requirements (r : CR) (cluster : Cluster) : List Req :=
  r.asList.filter (fun requirement => !requirement.is_met cluster)

/-- `create_cluster`, from the point where the external `build_cluster`
collaborator has produced `built`: the defensive re-validation that every
requirement holds on the new cluster, raising otherwise.  (The assembly
of `start_args`/`connect_args` and the external call itself are the
provisioning collaborator, outside this model.) -/
def create_cluster (r : CR) (built : Cluster) : Except String Cluster :=
  let still_unmet := get_unmet_requirements r built
  if 0 < still_unmet.length then
    .error ("Newly created cluster still has the following requirements unmet: " ++
      String.intercalate ", " (still_unmet.map strReq))
  else
    .ok built

/-- One discovered testset: class name, the (opaque) testset class, its
test names, and its declared configurations. -/
structure TestSetInfo (τ : Type) where
  class_name : String
  testset_class : τ
  test_names : List String
  configurations : List CR

/-- The body of the grouping loop of `group_testsets` for one
`(requirements, testset)` pair: the testset is appended to every existing
group whose representative requirements the pair is `satisfied_by`, and a
new group is started only when no existing group qualified. -/
def group_step {τ : Type} (grouped : List (CR × List τ)) (requirements : CR) (testset : τ) :
    List (CR × List τ) :=
  let updated := grouped.map (fun g =>
    if satisfied_by requirements g.1 then (g.1, g.2 ++ [testset]) else g)
  if grouped.any (fun g => satisfied_by requirements g.1) then updated
  else updated ++ [(requirements, [testset])]

/-- `group_testsets`: fold every configuration of every testset through
`group_step` (outer loop over testsets, inner over configurations; the
work item is named `class_name/str(requirements)`), then sort the groups
by the string form of their representative requirements. -/
def group_testsets {τ : Type} (testsets : List (TestSetInfo τ)) :
    List (CR × List (String × τ × List String)) :=
  pySorted (fun g => strCR g.1)
    (testsets.foldl (fun acc info =>
      info.configurations.foldl (fun acc2 requirements =>
        group_step acc2 requirements
          (info.class_name ++ "/" ++ strCR requirements, info.testset_class, info.test_names))
        acc) [])

/-- `ClusterRequirements(edition="Enterprise")`. -/
def rEnt : CR := { emptyCR with edition := some (.edition "Enterprise") }

/-- `ClusterRequirements(num_nodes=1)`. -/
def rNodes : CR := { emptyCR with num_nodes := some (.numNodes (some 1) none none none) }

/-- Scenario set A: `{edition=Enterprise, num_nodes=1}`. -/
def crA : CR :=
  { emptyCR with
    edition := some (.edition "Enterprise"),
    num_nodes := some (.numNodes (some 1) none none none) }

/-- Scenario set B: `{edition=Enterprise, num_nodes=1, memsize=512}`. -/
def crB : CR := { crA with memsize := some (.memSize (some 512) none) }

/-- Scenario set C: `{edition=Community, num_nodes=1}`. -/
def crC : CR :=
  { emptyCR with
    edition := some (.edition "Community"),
    num_nodes := some (.numNodes (some 1) none none none) }

/-- The grouping-scenario input: suites with requirement sets A, B, C in
that order, one configuration each. -/
def inputC3 : List (TestSetInfo String) :=
  [{ class_name := "SuiteA", testset_class := "ClassA", test_names := ["a_test"],
     configurations := [crA] },
   { class_name := "SuiteB", testset_class := "ClassB", test_names := ["b_test"],
     configurations := [crB] },
   { class_name := "SuiteC", testset_class := "ClassC", test_names := ["c_test"],
     configurations := [crC] }]

/-- The work item `group_testsets` builds for suite A. -/
def itemA : String × String × List String := ("SuiteA/" ++ strCR crA, "ClassA", ["a_test"])

/-- The work item `group_testsets` builds for suite B. -/
def itemB : String × String × List String := ("SuiteB/" ++ strCR crB, "ClassB", ["b_test"])

/-- The work item `group_testsets` builds for suite C. -/
def itemC : String × String × List String := ("SuiteC/" ++ strCR crC, "ClassC", ["c_test"])

/-- A connected-node observation with no services and an empty password
state (the `NumNodes` check only reads the length of the list). -/
def plainNode : ConnNode := { services := [], password_state := "" }

/-- An enterprise cluster with 3 total nodes, all 3 connected. -/
def cluster3of3 : Cluster :=
  { is_enterprise := true, is_serverless := false, is_provisioned := false,
    nodes := 3, connected := [plainNode, plainNode, plainNode], memsize := 256,
    pools_nodes_afamily := [], pools_nodes_encryption := [],
    default_num_vbuckets := 16 }

/-- The same cluster with only 2 of the 3 nodes connected. -/
def cluster2of3 : Cluster := { cluster3of3 with connected := [plainNode, plainNode] }

/-- `NumNodes(num_nodes=3)` — no connected constraint given. -/
def nn3 : Req := .numNodes (some 3) none none none

deriving instance DecidableEq for Except

theorem charListLt_asymm : ∀ (a b : List Char), charListLt a b = true → charListLt b a = false
  | [], [] => by simp [charListLt]
  | [], _ :: _ => by simp [charListLt]
  | _ :: _, [] => by simp [charListLt]
  | c :: cs, d :: ds => by
      simp only [charListLt]
      intro h
      rcases Nat.lt_trichotomy c.toNat d.toNat with hlt | heq | hgt
      · rw [if_neg (by omega), if_pos hlt]
      · rw [if_neg (by omega), if_neg (by omega)]
        rw [if_neg (by omega), if_neg (by omega)] at h
        exact charListLt_asymm cs ds h
      · rw [if_neg (by omega), if_pos hgt] at h
        exact absurd h (by simp)

theorem charListLt_negtrans :
    ∀ (a b c : List Char), charListLt a b = false → charListLt b c = false →
      charListLt a c = false
  | a, _, [] => by cases a <;> simp [charListLt]
  | _, [], _ :: _ => by intro _ h2; simp [charListLt] at h2
  | [], _ :: _, _ :: _ => by intro h1 _; simp [charListLt] at h1
  | x :: xs, y :: ys, z :: zs => by
      simp only [charListLt]
      intro h1 h2
      rcases Nat.lt_trichotomy x.toNat y.toNat with hxy | hxy | hxy
      · rw [if_pos hxy] at h1; exact absurd h1 (by simp)
      · rw [if_neg (by omega), if_neg (by omega)] at h1
        rcases Nat.lt_trichotomy y.toNat z.toNat with hyz | hyz | hyz
        · rw [if_pos hyz] at h2; exact absurd h2 (by simp)
        · rw [if_neg (by omega), if_neg (by omega)] at h2
          rw [if_neg (by omega), if_neg (by omega)]
          exact charListLt_negtrans xs ys zs h1 h2
        · rw [if_neg (by omega), if_pos (by omega)]
      · rcases Nat.lt_trichotomy y.toNat z.toNat with hyz | hyz | hyz
        · rw [if_pos hyz] at h2; exact absurd h2 (by simp)
        · rw [if_neg (by omega), if_pos (by omega)]
        · rw [if_neg (by omega), if_pos (by omega)]

theorem strLeB_total (a b : String) : strLeB a b = true ∨ strLeB b a = true := by
  rcases hb : strLtB b a with _ | _
  · left; simp [strLeB, hb]
  · right
    have h2 : charListLt a.data b.data = false := charListLt_asymm _ _ hb
    simp [strLeB, strLtB, String.toList, h2]

theorem strLeB_trans (a b c : String) (h1 : strLeB a b = true) (h2 : strLeB b c = true) :
    strLeB a c = true := by
  unfold strLeB strLtB at h1 h2 ⊢
  simp only [Bool.not_eq_true'] at h1 h2 ⊢
  exact charListLt_negtrans _ _ _ h2 h1

theorem keyLe_isTotal {α : Type} (key : α → String) : IsTotal α (keyLe key) :=
  ⟨fun a b => strLeB_total (key a) (key b)⟩

theorem keyLe_isTrans {α : Type} (key : α → String) : IsTrans α (keyLe key) :=
  ⟨fun _ _ _ h1 h2 => strLeB_trans _ _ _ h1 h2⟩

theorem pySorted_pairwise {α : Type} (key : α → String) (l : List α) :
    List.Pairwise (keyLe key) (pySorted key l) :=
  @List.sorted_insertionSort _ (keyLe key) _ (keyLe_isTotal key) (keyLe_isTrans key) l

theorem pySorted_perm {α : Type} (key : α → String) (l : List α) :
    (pySorted key l).Perm l :=
  List.perm_insertionSort (keyLe key) l

theorem intersect_limits_comm (m1 e1 m2 e2 : Option Int)
    (h1 : (m1.isSome ^^ e1.isSome) = true) (h2 : (m2.isSome ^^ e2.isSome) = true) :
    intersect_limits m1 e1 m2 e2 = intersect_limits m2 e2 m1 e1 := by
  rcases m1 with _ | v1 <;> rcases e1 with _ | w1 <;> rcases m2 with _ | v2 <;>
    rcases e2 with _ | w2 <;> simp_all [intersect_limits, max_comm]
  rcases eq_or_ne w1 w2 with rfl | hne
  · simp
  · simp [hne, hne.symm]

theorem wfNN_parts (n m c mc : Option Int) (h : wfReq (.numNodes n m c mc) = true) :
    (m.isSome ^^ n.isSome) = true ∧
      ((nn_min_num_connected n m c mc).isSome ^^ (nn_num_connected n m c mc).isSome) = true := by
  rcases n with _ | nv <;> rcases m with _ | mv <;> rcases c with _ | cv <;>
    rcases mc with _ | mcv <;>
      simp_all [wfReq, mkNumNodes, Except.isOk, Except.toBool, nn_num_connected, nn_min_num_connected]

theorem wfMS_parts (ms mm : Option Int) (h : wfReq (.memSize ms mm) = true) :
    (mm.isSome ^^ ms.isSome) = true := by
  rcases ms with _ | v <;> rcases mm with _ | w <;> simp_all [wfReq, mkMemSize, Except.isOk, Except.toBool]

theorem intersect_comm_eq (a b : Req) (hk : a.className = b.className)
    (ha : wfReq a = true) (hb : wfReq b = true) :
    Req.intersect a b = Req.intersect b a := by
  cases a <;> cases b <;> try rfl
  case numNodes.numNodes n1 m1 c1 mc1 n2 m2 c2 mc2 =>
    obtain ⟨ht1, hc1⟩ := wfNN_parts _ _ _ _ ha
    obtain ⟨ht2, hc2⟩ := wfNN_parts _ _ _ _ hb
    simp only [Req.intersect]
    rw [intersect_limits_comm _ _ _ _ ht1 ht2, intersect_limits_comm _ _ _ _ hc1 hc2]
  case memSize.memSize ms1 mm1 ms2 mm2 =>
    have h1 := wfMS_parts _ _ ha
    have h2 := wfMS_parts _ _ hb
    simp only [Req.intersect]
    rw [intersect_limits_comm _ _ _ _ h1 h2]

/-- C1: the claim states `satisfied_by(other)` is true iff every
requirement of `self` has an equal counterpart among the requirements of
`other`.  At `self = other = ClusterRequirements(edition="Enterprise")`
every requirement of `self` trivially has a string-equal counterpart in
`other` (itself), yet `satisfied_by` returns `False`: the source iterates
`other.requirements`, a dict, so it compares each requirement against the
key strings of the dict instead of against the requirement values. -/
theorem c1_satisfied_by_divergence :
    satisfied_by rEnt rEnt = false ∧
      rEnt.asList.all (fun q => rEnt.asList.any (fun q2 => strReq q == strReq q2)) = true := by
  decide

/-- C2: the claimed reflexivity `r.satisfied_by(r)` fails on the code for
any set with at least one requirement present, here
`ClusterRequirements(num_nodes=1)`. -/
theorem c2_reflexivity_failure : satisfied_by rNodes rNodes = false := by
  decide

/-- C3 counterexample: for the input suites with requirement sets A, B, C
in that order, no output group of `group_testsets` contains both the A
work item and the B work item, refuting the claim that A and B land in
one group. -/
theorem c3_counterexample :
    (group_testsets inputC3).all (fun g => !(g.2.contains itemA && g.2.contains itemB)) = true := by
  decide

/-- C3 (amended): on that input `group_testsets` produces three singleton
groups — each work item alone under its own requirement set — ordered by
canonical string: C, then A, then B. -/
theorem c3_three_singleton_groups :
    group_testsets inputC3 = [(crC, [itemC]), (crA, [itemA]), (crB, [itemB])] := by
  decide

/-- C4: `intersect_limits` on exact/min limit pairs: two exacts succeed
iff equal (giving that exact); an exact against a min succeeds iff the
exact is at least the min (giving the exact), in either argument order;
two mins always succeed giving the max in min form; and on success
exactly one of the returned min/exact is set. -/
theorem c4_intersect_limits_cases :
    (∀ e1 e2 : Int, intersect_limits none (some e1) none (some e2) =
        if e1 = e2 then (true, none, some e1) else (false, none, none)) ∧
    (∀ e m : Int, intersect_limits none (some e) (some m) none =
        if e < m then (false, none, none) else (true, none, some e)) ∧
    (∀ m e : Int, intersect_limits (some m) none none (some e) =
        if e < m then (false, none, none) else (true, none, some e)) ∧
    (∀ m1 m2 : Int, intersect_limits (some m1) none (some m2) none =
        (true, some (max m1 m2), none)) ∧
    (∀ min1 e1 min2 e2 : Option Int, (intersect_limits min1 e1 min2 e2).1 = true →
        ((intersect_limits min1 e1 min2 e2).2.1.isSome ^^
          (intersect_limits min1 e1 min2 e2).2.2.isSome) = true) := by
  refine ⟨?_, ?_, ?_, ?_, ?_⟩
  · intro e1 e2
    by_cases h : e1 = e2 <;> simp [intersect_limits, h]
  · intro e m
    by_cases h : e < m <;> simp [intersect_limits, h]
  · intro m e
    by_cases h : e < m <;> simp [intersect_limits, h]
  · intro m1 m2; rfl
  · intro min1 e1 min2 e2 h
    rcases e1 with _ | w1 <;> rcases e2 with _ | w2 <;> rcases min1 with _ | v1 <;>
      rcases min2 with _ | v2 <;> simp_all [intersect_limits] <;> split_ifs <;> simp_all

/-- Witness for C4: the success case of two equal exacts returns exactly
one set component. -/
theorem c4_witness :
    ((intersect_limits none (some 5) none (some 5)).2.1.isSome ^^
      (intersect_limits none (some 5) none (some 5)).2.2.isSome) = true :=
  c4_intersect_limits_cases.2.2.2.2 none (some 5) none (some 5) (by decide)

/-- C5: for two well-formed requirements of the same kind,
`a.intersect(b)` and `b.intersect(a)` agree — the same outcome (so in
particular the same success flag), and on success the resulting
requirements are equal under the string equality `Requirement.__eq__`
uses. -/
theorem c5_intersect_commutative (a b : Req) (hk : a.className = b.className)
    (ha : wfReq a = true) (hb : wfReq b = true) :
    Req.intersect a b = Req.intersect b a ∧
      ∀ flag ra, Req.intersect a b = .ok (flag, some ra) →
        ∃ rb, Req.intersect b a = .ok (flag, some rb) ∧ strReq ra = strReq rb := by
  have he := intersect_comm_eq a b hk ha hb
  exact ⟨he, fun flag ra h => ⟨ra, by rw [← he]; exact h, rfl⟩⟩

/-- Witness for C5 at `NumNodes(num_nodes=2)` against
`NumNodes(min_num_nodes=2)`. -/
theorem c5_witness :
    Req.intersect (.numNodes (some 2) none none none) (.numNodes none (some 2) none none) =
      Req.intersect (.numNodes none (some 2) none none) (.numNodes (some 2) none none none) :=
  (c5_intersect_commutative (.numNodes (some 2) none none none)
    (.numNodes none (some 2) none none) rfl (by decide) (by decide)).1

/-- C6: `create_cluster` returns the freshly built cluster iff the set
leaves no requirement unmet on it, and raises (the defensive
post-provisioning check) iff at least one requirement is still unmet. -/
theorem c6_create_cluster_defensive (r : CR) (built : Cluster) :
    (create_cluster r built = .ok built ↔ get_unmet_requirements r built = []) ∧
      ((∃ e, create_cluster r built = .error e) ↔ get_unmet_requirements r built ≠ []) := by
  unfold create_cluster
  rcases h : get_unmet_requirements r built with _ | ⟨q, qs⟩ <;> simp [h]

/-- C7: `MemSize` construction fails for every exact or min value below
256 and succeeds at 256 or above (with the other variant absent), and
`MemSize(min_memsize=512).intersect(MemSize(memsize=256))` is
unsatisfiable. -/
theorem c7_memsize_bounds :
    (∀ v : Int, v < 256 →
        (∃ e, mkMemSize (some v) none = .error e) ∧
          (∃ e, mkMemSize none (some v) = .error e)) ∧
    (∀ v : Int, 256 ≤ v →
        (∃ r, mkMemSize (some v) none = .ok r) ∧ (∃ r, mkMemSize none (some v) = .ok r)) ∧
    (mkMemSize none (some 512) = .ok (.memSize none (some 512)) ∧
      mkMemSize (some 256) none = .ok (.memSize (some 256) none) ∧
      Req.intersect (.memSize none (some 512)) (.memSize (some 256) none) = .ok (false, none)) := by
  refine ⟨?_, ?_, by decide, by decide, by decide⟩
  · intro v hv
    exact ⟨⟨"memsize must be a positive integer >= 256", by simp [mkMemSize, hv]⟩,
           ⟨"min_memsize must be a positive integer >= 256", by simp [mkMemSize, hv]⟩⟩
  · intro v hv
    have hnot : ¬(v < 256) := by omega
    exact ⟨⟨.memSize (some v) none, by simp [mkMemSize, hnot]⟩,
           ⟨.memSize none (some v), by simp [mkMemSize, hnot]⟩⟩

/-- Witness for C7 at the concrete values 100 (rejected) and 512
(accepted). -/
theorem c7_witness :
    ((∃ e, mkMemSize (some 100) none = .error e) ∧
      (∃ e, mkMemSize none (some 100) = .error e)) ∧
    ((∃ r, mkMemSize (some 512) none = .ok r) ∧ (∃ r, mkMemSize none (some 512) = .ok r)) :=
  ⟨c7_memsize_bounds.1 100 (by decide), c7_memsize_bounds.2.1 512 (by decide)⟩

/-- C8: `NumNodes(num_nodes=3)` (no connected constraint, so connected
defaults to mirror the total) is met by a cluster with 3 total and 3
connected nodes and not met with only 2 connected. -/
theorem c8_numnodes_connected_default :
    mkNumNodes (some 3) none none none = .ok nn3 ∧
      Req.is_met nn3 cluster3of3 = true ∧ Req.is_met nn3 cluster2of3 = false := by
  decide

/-- C9: the canonical string of a requirement set lists the requirements
that cannot be met post-creation first and the mutable ones second, each
partition sorted by class name, joined by commas; and `group_testsets`
returns its groups sorted by the canonical string of each representative
set. -/
theorem c9_canonical_string_and_sorted_groups :
    (∀ r : CR, ∃ L1 L2 : List Req,
        L1.Perm (r.asList.filter (fun q => !q.can_be_met)) ∧
        L2.Perm (r.asList.filter (fun q => q.can_be_met)) ∧
        List.Pairwise (keyLe Req.className) L1 ∧
        List.Pairwise (keyLe Req.className) L2 ∧
        strCR r = String.intercalate "," ((L1 ++ L2).map strReq)) ∧
    (∀ (τ : Type) (input : List (TestSetInfo τ)),
        List.Pairwise (fun g1 g2 => strLeB (strCR g1.1) (strCR g2.1) = true)
          (group_testsets input)) := by
  constructor
  · intro r
    refine ⟨(pySorted Req.className r.asList).filter (fun x => !x.can_be_met),
            (pySorted Req.className r.asList).filter (fun x => x.can_be_met),
            ?_, ?_, ?_, ?_, rfl⟩
    · exact (pySorted_perm Req.className r.asList).filter _
    · exact (pySorted_perm Req.className r.asList).filter _
    · exact List.Pairwise.sublist (List.filter_sublist _) (pySorted_pairwise _ _)
    · exact List.Pairwise.sublist (List.filter_sublist _) (pySorted_pairwise _ _)
  · intro τ input
    exact pySorted_pairwise (fun g : CR × List (String × τ × List String) => strCR g.1) _

/-- C10: in the grouping loop, a pair is appended to every existing group
whose representative it is `satisfied_by` (so one work item can land in
several groups); a requirement set with nothing present is `satisfied_by`
everything, hence joins every existing group; and a new group is started
exactly when no group exists to take the pair. -/
theorem c10_group_step_membership (τ : Type) (grouped : List (CR × List τ)) (reqs : CR)
    (ts : τ) :
    (∀ rep l, (rep, l) ∈ grouped → satisfied_by reqs rep = true →
        (rep, l ++ [ts]) ∈ group_step grouped reqs ts) ∧
      (∀ other : CR, reqs.asList = [] → satisfied_by reqs other = true) ∧
      (reqs.asList = [] → grouped ≠ [] →
        group_step grouped reqs ts = grouped.map (fun g => (g.1, g.2 ++ [ts]))) ∧
      group_step ([] : List (CR × List τ)) reqs ts = [(reqs, [ts])] := by
  refine ⟨?_, ?_, ?_, rfl⟩
  · intro rep l hmem hsat
    unfold group_step
    have hany : grouped.any (fun g => satisfied_by reqs g.1) = true :=
      List.any_eq_true.mpr ⟨(rep, l), hmem, hsat⟩
    rw [if_pos hany]
    exact List.mem_map.mpr ⟨(rep, l), hmem, by simp [hsat]⟩
  · intro other h
    simp [satisfied_by, h]
  · intro h hne
    unfold group_step
    have hall : ∀ g, g ∈ grouped → satisfied_by reqs g.1 = true := by
      intro g _
      simp [satisfied_by, h]
    have hany : grouped.any (fun g => satisfied_by reqs g.1) = true := by
      rcases grouped with _ | ⟨g, gs⟩
      · exact absurd rfl hne
      · simp [hall g (by simp)]
    rw [if_pos hany]
    exact List.map_congr_left (fun g hg => by simp [hall g hg])

/-- Witness for C10: the empty requirement set joins both existing groups
and starts none. -/
theorem c10_witness :
    (crA, ([] : List String) ++ ["t"]) ∈ group_step [(crA, []), (crC, [])] emptyCR "t" ∧
      group_step [(crA, []), (crC, [])] emptyCR "t" =
        [(crA, ([] : List String)), (crC, [])].map (fun g => (g.1, g.2 ++ ["t"])) := by
  have h := c10_group_step_membership String [(crA, []), (crC, [])] emptyCR "t"
  exact ⟨h.1 crA [] (by decide) (h.2.1 crA (by decide)), h.2.2.1 (by decide) (by decide)⟩
